import Mathlib

/-!
Verification of the Binance trading bot repository.

The repository has two near-identical entry points:
`bot.py` (a functional script: `load_config`, `get_account_balance`,
`execute_safe_trade`, `run_bot`) and `trading_bot.py` (a class `BasicBot`
with `get_balance`, `execute_trade`, `run`, plus `load_env` and an argparse
entry point). Prices and quantities are embedded as rationals; the Python
`logging` severities are embedded as an explicit list of emitted record
levels; exchange-call outcomes (success or raised exception) are oracle
inputs to each modelled call.
-/

namespace TradingBot

/-- The three possible outcomes of the threshold comparison inlined in the
run loops (the spec calls this `Decision`). -/
inductive Decision
  | NoAction
  | RequestBuy
  | RequestSell
deriving DecidableEq

/-- Severity levels of the Python `logging` records the scripts emit. -/
inductive Severity
  | info
  | warning
  | error
  | critical
deriving DecidableEq

/-- Result of a price fetch: `client.get_symbol_ticker` either returns a
price or raises a network/exchange exception. -/
inductive Fetch
  | ok (price : ℚ)
  | raise
deriving DecidableEq

/-- The pure decision function: the threshold logic inlined at
bot.py lines 102-110 and trading_bot.py lines 131-139
(`if not in_position and price < buy_price ... elif in_position and
price > sell_price ... else` nothing). -/
def evaluate (in_position : Bool) (price buy_price sell_price : ℚ) : Decision :=
  if in_position = false ∧ price < buy_price then .RequestBuy
  else if in_position = true ∧ price > sell_price then .RequestSell
  else .NoAction

/-- Outcome of one modelled order call: the boolean the Python function
returns, plus the severities of the log records it emitted. -/
structure TradeResult where
  ok : Bool
  logs : List Severity
deriving DecidableEq

/-- bot.py `send_alert` (lines 63-65): a single `logging.warning` record. -/
def send_alert : List Severity := [.warning]

/-- bot.py `execute_safe_trade` (lines 67-77): on success logs the order at
info and returns True; on an exception logs at error, calls `send_alert`
(one warning), and returns False. `order_ok` is the oracle for whether the
exchange call raises. -/
def execute_safe_trade (order_ok : Bool) : TradeResult :=
  if order_ok then { ok := true, logs := [.info] }
  else { ok := false, logs := [.error] ++ send_alert }

/-- trading_bot.py `BasicBot.execute_trade` (lines 59-69): on success logs
at info and returns True; on an exception logs at error only (no alert)
and returns False. -/
def execute_trade (order_ok : Bool) : TradeResult :=
  if order_ok then { ok := true, logs := [.info] }
  else { ok := false, logs := [.error] }

/-- The position update the run loops perform after an order call, written
as the spec's `applyOutcome`: flip to in-position only after a successful
buy, flip back only after a successful sell, otherwise unchanged. -/
def applyOutcome (d : Decision) (orderSucceeded : Bool) (in_position : Bool) : Bool :=
  match d, orderSucceeded with
  | .RequestBuy, true => true
  | .RequestSell, true => false
  | _, _ => in_position

/-- Observable outcome of one pass through a run loop: the position flag
afterwards, which branch of the threshold logic ran, how many order
submissions were attempted, the severities of the records emitted, and
whether the loop goes on to another iteration. -/
structure IterOut where
  in_position : Bool
  decided : Decision
  orders : ℕ
  logs : List Severity
  continues : Bool
deriving DecidableEq

/-- One iteration of trading_bot.py `BasicBot.run` with `ui_mode=False`
(lines 107-147). A raised fetch is caught by the inner
`except Exception` (line 146): one error record, state untouched, loop
continues. On a fetched price: one info record (line 110), then the
threshold logic (lines 131-139), where a successful trade flips the flag
and logs an extra info record; the iteration always continues. -/
def run_iteration (in_position : Bool) (buy_price sell_price : ℚ)
    (fetch : Fetch) (order_ok : Bool) : IterOut :=
  match fetch with
  | .raise =>
      { in_position := in_position, decided := .NoAction, orders := 0,
        logs := [.error], continues := true }
  | .ok price =>
      if in_position = false ∧ price < buy_price then
        let t := execute_trade order_ok
        if t.ok then
          { in_position := true, decided := .RequestBuy, orders := 1,
            logs := [.info] ++ t.logs ++ [.info], continues := true }
        else
          { in_position := in_position, decided := .RequestBuy, orders := 1,
            logs := [.info] ++ t.logs, continues := true }
      else if in_position = true ∧ price > sell_price then
        let t := execute_trade order_ok
        if t.ok then
          { in_position := false, decided := .RequestSell, orders := 1,
            logs := [.info] ++ t.logs ++ [.info], continues := true }
        else
          { in_position := in_position, decided := .RequestSell, orders := 1,
            logs := [.info] ++ t.logs, continues := true }
      else
        { in_position := in_position, decided := .NoAction, orders := 0,
          logs := [.info], continues := true }

/-- One iteration of bot.py `run_bot` (lines 95-118). There is no inner
try: a raised fetch escapes the `while` loop to the outer
`except Exception` (line 116), which logs at critical, emits the
`send_alert` warning, and ends the loop. On a fetched price: one info
record, the threshold logic (lines 102-110) where a successful trade flips
the flag and emits a `send_alert` warning. -/
def run_bot_iteration (in_position : Bool) (buy_price sell_price : ℚ)
    (fetch : Fetch) (order_ok : Bool) : IterOut :=
  match fetch with
  | .raise =>
      { in_position := in_position, decided := .NoAction, orders := 0,
        logs := [.critical] ++ send_alert, continues := false }
  | .ok price =>
      if in_position = false ∧ price < buy_price then
        let t := execute_safe_trade order_ok
        if t.ok then
          { in_position := true, decided := .RequestBuy, orders := 1,
            logs := [.info] ++ t.logs ++ send_alert, continues := true }
        else
          { in_position := in_position, decided := .RequestBuy, orders := 1,
            logs := [.info] ++ t.logs, continues := true }
      else if in_position = true ∧ price > sell_price then
        let t := execute_safe_trade order_ok
        if t.ok then
          { in_position := false, decided := .RequestSell, orders := 1,
            logs := [.info] ++ t.logs ++ send_alert, continues := true }
        else
          { in_position := in_position, decided := .RequestSell, orders := 1,
            logs := [.info] ++ t.logs, continues := true }
      else
        { in_position := in_position, decided := .NoAction, orders := 0,
          logs := [.info], continues := true }

/-- The commands the interactive prompt of trading_bot.py accepts
(lines 113-128); `other` is any unrecognized input, which falls through
to `continue`. -/
inductive UICommand
  | buy
  | sell
  | oco
  | stop
  | quit
  | other
deriving DecidableEq

/-- One iteration of trading_bot.py `BasicBot.run` with `ui_mode=True`
(lines 107-129). The fetch happens first as in automatic mode; then the
command dispatch runs one gateway call at most, ignores its result, and
`continue`s (line 129) before the automatic threshold/state-update block;
`q` breaks out of the loop. `call_ok` is the oracle for the dispatched
gateway call (`execute_trade`, `place_oco_order` or
`place_stop_limit_sell`, the latter two logging error themselves on
failure). -/
def ui_iteration (in_position : Bool) (fetch : Fetch) (cmd : UICommand)
    (call_ok : Bool) : IterOut :=
  match fetch with
  | .raise =>
      { in_position := in_position, decided := .NoAction, orders := 0,
        logs := [.error], continues := true }
  | .ok _ =>
      match cmd with
      | .buy =>
          let t := execute_trade call_ok
          { in_position := in_position, decided := .NoAction, orders := 1,
            logs := [.info] ++ t.logs, continues := true }
      | .sell =>
          let t := execute_trade call_ok
          { in_position := in_position, decided := .NoAction, orders := 1,
            logs := [.info] ++ t.logs, continues := true }
      | .oco =>
          { in_position := in_position, decided := .NoAction, orders := 1,
            logs := [.info] ++ (if call_ok then [.info] else [.error]),
            continues := true }
      | .stop =>
          { in_position := in_position, decided := .NoAction, orders := 1,
            logs := [.info] ++ (if call_ok then [.info] else [.error]),
            continues := true }
      | .quit =>
          { in_position := in_position, decided := .NoAction, orders := 0,
            logs := [.info], continues := false }
      | .other =>
          { in_position := in_position, decided := .NoAction, orders := 0,
            logs := [.info], continues := true }

/-- The `BasicBot` constructor state (trading_bot.py lines 40-46): the
configuration fields plus the position flag, which `__init__` sets to
False. -/
structure BasicBot where
  symbol : String
  buy_price : ℚ
  sell_price : ℚ
  quantity : ℚ
  in_position : Bool
deriving DecidableEq

/-- trading_bot.py `BasicBot.__init__` (lines 40-46): stores the
configuration and initializes `in_position` to False. -/
def BasicBot.init (symbol : String) (buy_price sell_price quantity : ℚ) : BasicBot :=
  { symbol := symbol, buy_price := buy_price, sell_price := sell_price,
    quantity := quantity, in_position := false }

/-- The interactive loop of trading_bot.py, iterated over a schedule of
(fetch result, operator command, gateway-call outcome) triples, starting
from a given position flag; stops early when an iteration does not
continue (the `q` command). Returns the final position flag. -/
def ui_loop (in_position : Bool) : List (Fetch × UICommand × Bool) → Bool
  | [] => in_position
  | (f, c, ok) :: rest =>
      let o := ui_iteration in_position f c ok
      if o.continues then ui_loop o.in_position rest else o.in_position

/-! ### Configuration loading -/

/-- Python dict assignment `config[key] = value`: any earlier binding of
the key is dropped and the new one recorded. -/
def dict_set (cfg : List (String × String)) (k v : String) : List (String × String) :=
  (cfg.filter fun p => p.1 ≠ k) ++ [(k, v)]

/-- Python `config.get(key, default)` on the association list. -/
def dict_get (cfg : List (String × String)) (k dflt : String) : String :=
  match cfg.find? fun p => p.1 = k with
  | some p => p.2
  | none => dflt

/-- Python `str.strip()` on the character list of a line: whitespace
removed from both ends. -/
def strip (l : List Char) : List Char :=
  ((l.dropWhile Char.isWhitespace).reverse.dropWhile Char.isWhitespace).reverse

/-- Python `str.split(sep, 1)` restricted to a one-character separator:
`none` when the separator does not occur, otherwise the part before its
first occurrence and everything after it. -/
def split_first (c : Char) : List Char → Option (List Char × List Char)
  | [] => none
  | x :: xs =>
      if x = c then some ([], xs)
      else (split_first c xs).map fun p => (x :: p.1, p.2)

/-- One line of `.env` handling shared by bot.py `load_config`
(lines 15-18) and trading_bot.py `load_env` (lines 16-19): skip lines
that are blank after stripping or start with a hash, split the stripped
line on the first equals sign (`key, value = line.strip().split(=, 1)`).
A line with no equals sign makes Python's two-name unpacking raise
ValueError, modelled as the outer `none`; a skipped line is `some none`. -/
def parse_env_line (line : String) : Option (Option (String × String)) :=
  if strip line.data ≠ [] ∧ line.data.head? ≠ some '#' then
    match split_first '=' (strip line.data) with
    | none => none
    | some kv => some (some (String.mk kv.1, String.mk kv.2))
  else some none

/-- The accumulation of parsed `.env` lines into the config dict that both
scripts perform in their `for line in f` loop. -/
def parse_env_lines (lines : List String) : Option (List (String × String)) :=
  lines.foldlM
    (fun cfg line =>
      (parse_env_line line).map fun entry =>
        match entry with
        | none => cfg
        | some kv => dict_set cfg kv.1 kv.2)
    []

/-- The default dict bot.py `load_config` substitutes when the `.env` file
is missing (lines 19-29). -/
def default_config : List (String × String) :=
  [("BINANCE_API_KEY", "your_testnet_key"),
   ("BINANCE_API_SECRET", "your_testnet_secret"),
   ("USE_TESTNET", "True"),
   ("SYMBOL", "BTCUSDT"),
   ("BUY_THRESHOLD", "60000"),
   ("SELL_THRESHOLD", "68000"),
   ("TRADE_QUANTITY", "0.001")]

/-- bot.py `load_config` (lines 10-30): parse the `.env` file when present
(`some lines`); on FileNotFoundError (`none`) print a warning and return
the built-in testnet defaults. -/
def load_config (file : Option (List String)) : Option (List (String × String)) :=
  match file with
  | none => some default_config
  | some lines => parse_env_lines lines

/-- trading_bot.py `load_env` (lines 12-22): parse the `.env` file when
present; on FileNotFoundError log a warning and return the empty dict. -/
def load_env (file : Option (List String)) : Option (List (String × String)) :=
  match file with
  | none => some ([] : List (String × String))
  | some lines => parse_env_lines lines

/-- The numeric value of a run of decimal digit characters. -/
def digitsToNat (l : List Char) : ℕ :=
  l.foldl (fun n c => 10 * n + (c.toNat - 48)) 0

/-- Python `float()` restricted to the plain decimal literals the scripts
pass it: optional minus sign, digit characters with at most one decimal
point and at least one digit. The value `d₀…dₖ.f₁…fₘ` is the exact
rational with numerator `d₀…dₖf₁…fₘ` and denominator `10^m`; anything
else raises ValueError, modelled as `none`. -/
def parse_decimal (s : String) : Option ℚ :=
  let sign : ℤ := if s.data.head? = some '-' then -1 else 1
  let body : List Char := if s.data.head? = some '-' then s.data.drop 1 else s.data
  if (body.all fun c => c.isDigit ∨ c = '.') ∧ body.any Char.isDigit then
    match split_first '.' body with
    | none => some (mkRat (sign * digitsToNat body) 1)
    | some ip =>
        if ip.2.all Char.isDigit then
          some (mkRat (sign * (digitsToNat ip.1 * 10 ^ ip.2.length + digitsToNat ip.2))
            (10 ^ ip.2.length))
        else none
  else none

/-- Python `str.lower()` for the ASCII strings the scripts compare. -/
def lower (s : String) : String :=
  String.mk (s.data.map Char.toLower)

/-- The parsed argument values of trading_bot.py's entry point. -/
structure ArgsDefaults where
  api_key : String
  api_secret : String
  symbol : String
  buy : ℚ
  sell : ℚ
  qty : ℚ
  testnet : Bool
deriving DecidableEq

/-- The argparse `default=` values of trading_bot.py (lines 160-166) as a
function of the dict `load_env` produced: credentials default to the
empty string, symbol to BTCUSDT, thresholds and quantity to
`float()` of the string defaults, testnet to whether
`USE_TESTNET` (default the string True) lowercases to true. `none` models
`float()` raising on an unparsable threshold string. -/
def argparse_defaults (env : List (String × String)) : Option ArgsDefaults := do
  let buy ← parse_decimal (dict_get env "BUY_THRESHOLD" "60000")
  let sell ← parse_decimal (dict_get env "SELL_THRESHOLD" "68000")
  let qty ← parse_decimal (dict_get env "TRADE_QUANTITY" "0.001")
  some
    { api_key := dict_get env "BINANCE_API_KEY" ""
      api_secret := dict_get env "BINANCE_API_SECRET" ""
      symbol := dict_get env "SYMBOL" "BTCUSDT"
      buy := buy
      sell := sell
      qty := qty
      testnet := lower (dict_get env "USE_TESTNET" "True") = "true" }

/-! ### Balance queries -/

/-- Python dict assignment for the asset-to-free-amount mapping. -/
def dict_setQ (cfg : List (String × ℚ)) (k : String) (v : ℚ) : List (String × ℚ) :=
  (cfg.filter fun p => p.1 ≠ k) ++ [(k, v)]

/-- bot.py `get_account_balance` (lines 55-61): the dict comprehension
`{item.asset : item.free for item in balances if item.free > 0}` over the
account's balance entries (each an asset name with its free amount). -/
def get_account_balance (balances : List (String × ℚ)) : List (String × ℚ) :=
  balances.foldl
    (fun acc item => if item.2 > 0 then dict_setQ acc item.1 item.2 else acc)
    []

/-- trading_bot.py `BasicBot.get_balance` (lines 48-57): the same dict
comprehension over the fetched balances, except that a raised fetch
(`none`) is caught, logged at error, and the empty dict returned. -/
def get_balance (fetch : Option (List (String × ℚ))) : List (String × ℚ) :=
  match fetch with
  | none => []
  | some info =>
      info.foldl
        (fun acc b => if b.2 > 0 then dict_setQ acc b.1 b.2 else acc)
        []

/-! ### Theorems -/

/-- C1: for every price, config and position state, the decision logic
yields RequestBuy iff the state is not in position and the price is
strictly below the buy threshold, RequestSell iff the state is in
position and the price is strictly above the sell threshold, and
NoAction otherwise; exactly one of the three outcomes holds, never a buy
and a sell in the same evaluation. -/
theorem evaluate_cases (in_position : Bool) (price buy sell : ℚ) :
    (evaluate in_position price buy sell = .RequestBuy ↔
      in_position = false ∧ price < buy)
  ∧ (evaluate in_position price buy sell = .RequestSell ↔
      in_position = true ∧ price > sell)
  ∧ (evaluate in_position price buy sell = .NoAction ↔
      ¬(in_position = false ∧ price < buy) ∧ ¬(in_position = true ∧ price > sell))
  ∧ (evaluate in_position price buy sell = .NoAction
      ∨ evaluate in_position price buy sell = .RequestBuy
      ∨ evaluate in_position price buy sell = .RequestSell)
  ∧ ¬(evaluate in_position price buy sell = .RequestBuy
      ∧ evaluate in_position price buy sell = .RequestSell) := by
  unfold evaluate
  split_ifs with h1 h2 <;> simp_all

/-- C5 counterexample: with the (unvalidated) configuration
`buy_price = 70000`, `sell_price = 60000` and the state in position, a
price exactly equal to the buy threshold yields RequestSell, not
NoAction: the claim fails for configs where the sell threshold does not
exceed the buy threshold. -/
theorem threshold_tie_cex :
    evaluate true 70000 70000 60000 = Decision.RequestSell
    ∧ Decision.RequestSell ≠ Decision.NoAction := by decide

/-- C5 amended: both comparisons are strict, so a price equal to the buy
threshold never yields RequestBuy and a price equal to the sell
threshold never yields RequestSell; when additionally the buy threshold
does not exceed the sell threshold (the coherent configurations), a
price equal to either threshold yields NoAction. -/
theorem threshold_tie_no_action (in_position : Bool) (price buy sell : ℚ) :
    (price = buy → evaluate in_position price buy sell ≠ .RequestBuy)
  ∧ (price = sell → evaluate in_position price buy sell ≠ .RequestSell)
  ∧ (buy ≤ sell → price = buy ∨ price = sell →
      evaluate in_position price buy sell = .NoAction) := by
  unfold evaluate
  refine ⟨fun hb => ?_, fun hs => ?_, fun hbs hps => ?_⟩
  · split_ifs with h1 h2 <;> simp_all
  · split_ifs with h1 h2 <;> simp_all
  · rcases hps with h | h <;> split_ifs with h1 h2 <;> simp_all <;> linarith

/-- C5 witness: at the default thresholds, out of position, a price
exactly at the buy threshold yields NoAction. -/
theorem threshold_tie_no_action_witness :
    evaluate false 60000 60000 68000 = .NoAction :=
  (threshold_tie_no_action false 60000 60000 68000).2.2 (by norm_num) (Or.inl rfl)

/-- C7: the decision logic is a pure function of price, thresholds and
position flag: any number of repeated invocations on unchanged inputs
all yield the same Decision, and in both run loops the branch taken is
exactly this function of the fetched price and current state, for either
value of the order oracle (no hidden state affects it). -/
theorem evaluate_deterministic (in_position : Bool) (price buy sell : ℚ) (k : ℕ) :
    ((List.replicate k (evaluate in_position price buy sell)).all
        fun d => decide (d = evaluate in_position price buy sell)) = true
  ∧ (∀ order_ok, (run_iteration in_position buy sell (.ok price) order_ok).decided
      = evaluate in_position price buy sell)
  ∧ (∀ order_ok, (run_bot_iteration in_position buy sell (.ok price) order_ok).decided
      = evaluate in_position price buy sell) := by
  refine ⟨?_, fun order_ok => ?_, fun order_ok => ?_⟩
  · simp only [List.all_eq_true, decide_eq_true_eq]
    exact fun d hd => List.eq_of_mem_replicate hd
  · simp only [run_iteration, evaluate]
    split_ifs <;> rfl
  · simp only [run_bot_iteration, evaluate]
    split_ifs <;> rfl

/-- C2: the position flag starts false (`BasicBot.__init__`, and
`in_position = False` before `run_bot`'s loop), every loop iteration
updates it exactly as `applyOutcome` of the decided branch and the order
outcome, and `applyOutcome` flips it to true only on a successful buy,
to false only on a successful sell, and leaves it unchanged on failure
or NoAction: these two transitions are the only ways it ever changes. -/
theorem in_position_lifecycle :
    (∀ symbol buy sell qty, (BasicBot.init symbol buy sell qty).in_position = false)
  ∧ (∀ in_position (buy sell : ℚ) fetch order_ok,
      (run_iteration in_position buy sell fetch order_ok).in_position
        = applyOutcome (run_iteration in_position buy sell fetch order_ok).decided
            order_ok in_position
      ∧ (run_bot_iteration in_position buy sell fetch order_ok).in_position
        = applyOutcome (run_bot_iteration in_position buy sell fetch order_ok).decided
            order_ok in_position)
  ∧ (∀ s, applyOutcome .RequestBuy true s = true)
  ∧ (∀ s, applyOutcome .RequestSell true s = false)
  ∧ (∀ d s, applyOutcome d false s = s)
  ∧ (∀ ok s, applyOutcome .NoAction ok s = s)
  ∧ (∀ d ok s, applyOutcome d ok s = s
      ∨ (ok = true ∧ d = .RequestBuy ∧ s = false ∧ applyOutcome d ok s = true)
      ∨ (ok = true ∧ d = .RequestSell ∧ s = true ∧ applyOutcome d ok s = false)) := by
  refine ⟨fun _ _ _ _ => rfl, fun in_position buy sell fetch order_ok => ?_,
    fun s => rfl, fun s => rfl, fun d s => by cases d <;> rfl, fun ok s => rfl,
    fun d ok s => by cases d <;> cases ok <;> cases s <;> simp [applyOutcome]⟩
  cases fetch <;> cases order_ok <;>
    simp only [run_iteration, run_bot_iteration, execute_trade, execute_safe_trade,
      send_alert, applyOutcome] <;>
    (try split_ifs) <;> simp_all

/-- C6: a single pass through any of the loops (automatic in either
script, or interactive) attempts at most one order submission. -/
theorem at_most_one_order (in_position : Bool) (buy sell : ℚ) (fetch : Fetch)
    (cmd : UICommand) (order_ok call_ok : Bool) :
    (run_iteration in_position buy sell fetch order_ok).orders ≤ 1
  ∧ (run_bot_iteration in_position buy sell fetch order_ok).orders ≤ 1
  ∧ (ui_iteration in_position fetch cmd call_ok).orders ≤ 1 := by
  cases fetch <;> cases cmd <;>
    simp only [run_iteration, run_bot_iteration, ui_iteration] <;>
    (try split_ifs) <;> simp

/-- C3 counterexample: in trading_bot.py a failed order submission emits
no warning-level record at all (only an error record): out of position
at the default thresholds with price 59999, the iteration attempts one
buy order, the gateway fails, and the emitted records contain zero
warnings, refuting the claim that every failed order emits one
alert-level (warning) record. -/
theorem failed_order_no_warning_cex :
    (execute_trade false).ok = false
    ∧ (run_iteration false 60000 68000 (.ok 59999) false).orders = 1
    ∧ (run_iteration false 60000 68000 (.ok 59999) false).logs.count .warning = 0 := by
  decide

/-- C3 amended: whenever an order submission fails, the order call
returns a failure signal, the position flag is left unchanged, and the
loop proceeds to the next iteration without raising; in bot.py exactly
one alert-level (warning) record is emitted, while in trading_bot.py the
failure is logged at error level and no warning record is emitted. -/
theorem failed_order_handling (in_position : Bool) (buy sell price : ℚ) :
    (execute_safe_trade false).ok = false
  ∧ (execute_trade false).ok = false
  ∧ ((run_bot_iteration in_position buy sell (.ok price) false).orders = 1 →
      (run_bot_iteration in_position buy sell (.ok price) false).in_position = in_position
      ∧ (run_bot_iteration in_position buy sell (.ok price) false).continues = true
      ∧ (run_bot_iteration in_position buy sell (.ok price) false).logs.count .warning = 1)
  ∧ ((run_iteration in_position buy sell (.ok price) false).orders = 1 →
      (run_iteration in_position buy sell (.ok price) false).in_position = in_position
      ∧ (run_iteration in_position buy sell (.ok price) false).continues = true
      ∧ (run_iteration in_position buy sell (.ok price) false).logs.count .warning = 0
      ∧ (run_iteration in_position buy sell (.ok price) false).logs.count .error = 1) := by
  refine ⟨rfl, rfl, fun h => ?_, fun h => ?_⟩ <;>
    revert h <;>
    simp only [run_iteration, run_bot_iteration, execute_safe_trade, execute_trade,
      send_alert] <;>
    split_ifs <;> simp_all

/-- C3 witness: a concrete failing buy at the default thresholds, in
bot.py's loop: flag unchanged, loop continues, one warning emitted. -/
theorem failed_order_handling_witness :
    (run_bot_iteration false 60000 68000 (.ok 59999) false).in_position = false
    ∧ (run_bot_iteration false 60000 68000 (.ok 59999) false).continues = true
    ∧ (run_bot_iteration false 60000 68000 (.ok 59999) false).logs.count .warning = 1 :=
  (failed_order_handling false 60000 68000 59999).2.2.1 (by decide)

/-- C4 counterexample: in bot.py a raised price fetch is not caught
inside the loop: the iteration emits no error-level record (a critical
record and an alert instead) and the loop terminates rather than
continuing, refuting the claim that the loop always continues after a
fetch error. -/
theorem fetch_error_terminates_cex :
    (run_bot_iteration false 60000 68000 .raise true).continues = false
    ∧ (run_bot_iteration false 60000 68000 .raise true).orders = 0
    ∧ (run_bot_iteration false 60000 68000 .raise true).logs.count .error = 0 := by
  decide

/-- C4 amended: when the price fetch raises, no decision is computed and
no order is submitted in that iteration in either script; in
trading_bot.py one error-level record is emitted and the loop continues
to the next iteration, while in bot.py the exception escapes the loop:
a critical record and an alert are emitted and the loop terminates. -/
theorem fetch_error_handling (in_position : Bool) (buy sell : ℚ) (order_ok : Bool) :
    run_iteration in_position buy sell .raise order_ok
      = { in_position := in_position, decided := .NoAction, orders := 0,
          logs := [.error], continues := true }
  ∧ run_bot_iteration in_position buy sell .raise order_ok
      = { in_position := in_position, decided := .NoAction, orders := 0,
          logs := [.critical, .warning], continues := false } :=
  ⟨rfl, rfl⟩

/-- C9: no interactive-mode command ever modifies the position flag (the
dispatch ignores each trade result and re-enters the loop before the
automatic state-update code), so after any sequence of interactive
iterations the flag retains its initial false value. -/
theorem ui_mode_preserves_position :
    (∀ in_position fetch cmd call_ok,
        (ui_iteration in_position fetch cmd call_ok).in_position = in_position)
  ∧ (∀ events, ui_loop false events = false) := by
  have h : ∀ in_position fetch cmd call_ok,
      (ui_iteration in_position fetch cmd call_ok).in_position = in_position := by
    intro s f c ok
    cases f <;> cases c <;> rfl
  refine ⟨h, fun events => ?_⟩
  induction events with
  | nil => rfl
  | cons e rest ih =>
      obtain ⟨f, c, ok⟩ := e
      simp only [ui_loop, h]
      split <;> simp_all [h]

/-- Key membership in the dict-assignment model: after `config[k] = v`
a key is present iff it is `k` or was already present. -/
theorem mem_dict_setQ (acc : List (String × ℚ)) (k : String) (v : ℚ) (a : String) :
    (∃ q, (a, q) ∈ dict_setQ acc k v) ↔ a = k ∨ ∃ q, (a, q) ∈ acc := by
  simp only [dict_setQ, List.mem_append, List.mem_filter, List.mem_singleton,
    Prod.mk.injEq, decide_eq_true_eq]
  constructor
  · rintro ⟨q, ⟨hq, _⟩ | ⟨rfl, rfl⟩⟩
    · exact Or.inr ⟨q, hq⟩
    · exact Or.inl rfl
  · rintro (rfl | ⟨q, hq⟩)
    · exact ⟨v, Or.inr ⟨rfl, rfl⟩⟩
    · by_cases hak : a = k
      · exact ⟨v, Or.inr ⟨hak, rfl⟩⟩
      · exact ⟨q, Or.inl ⟨hq, hak⟩⟩

/-- Key membership across the balance-comprehension fold: a key is in the
result iff it was in the accumulator or some entry with that asset has a
positive free amount. -/
theorem mem_balance_foldl (l : List (String × ℚ)) :
    ∀ (acc : List (String × ℚ)) (a : String),
      (∃ q, (a, q) ∈ l.foldl
          (fun acc item => if item.2 > 0 then dict_setQ acc item.1 item.2 else acc) acc)
      ↔ (∃ q, (a, q) ∈ acc) ∨ ∃ q, (a, q) ∈ l ∧ q > 0 := by
  induction l with
  | nil => simp
  | cons x xs ih =>
      intro acc a
      simp only [List.foldl_cons]
      rw [ih]
      by_cases hx : x.2 > 0
      · rw [if_pos hx, mem_dict_setQ]
        constructor
        · rintro ((rfl | h) | h)
          · exact Or.inr ⟨x.2, List.mem_cons_self x xs, hx⟩
          · exact Or.inl h
          · obtain ⟨q, hq, hq0⟩ := h
            exact Or.inr ⟨q, List.mem_cons_of_mem x hq, hq0⟩
        · rintro (h | ⟨q, hq, hq0⟩)
          · exact Or.inl (Or.inr h)
          · rcases List.mem_cons.1 hq with hq | hq
            · exact Or.inl (Or.inl (congrArg Prod.fst hq))
            · exact Or.inr ⟨q, hq, hq0⟩
      · rw [if_neg hx]
        constructor
        · rintro (h | ⟨q, hq, hq0⟩)
          · exact Or.inl h
          · exact Or.inr ⟨q, List.mem_cons_of_mem x hq, hq0⟩
        · rintro (h | ⟨q, hq, hq0⟩)
          · exact Or.inl h
          · rcases List.mem_cons.1 hq with hq | hq
            · subst hq
              exact absurd hq0 hx
            · exact Or.inr ⟨q, hq, hq0⟩

/-- Every free amount recorded by the balance-comprehension fold is
positive, provided the accumulator only holds positive amounts. -/
theorem pos_balance_foldl (l : List (String × ℚ)) :
    ∀ acc, (∀ p ∈ acc, (0 : ℚ) < p.2) →
      ∀ p ∈ l.foldl
          (fun acc item => if item.2 > 0 then dict_setQ acc item.1 item.2 else acc) acc,
        (0 : ℚ) < p.2 := by
  induction l with
  | nil =>
      intro acc h
      simpa using h
  | cons x xs ih =>
      intro acc hacc
      simp only [List.foldl_cons]
      apply ih
      intro p hp
      by_cases hx : x.2 > 0
      · rw [if_pos hx] at hp
        simp only [dict_setQ, List.mem_append, List.mem_filter, List.mem_singleton] at hp
        rcases hp with ⟨hp, _⟩ | rfl
        · exact hacc p hp
        · exact hx
      · rw [if_neg hx] at hp
        exact hacc p hp

/-- C10: the balance query returns a mapping whose keys are exactly the
assets having an entry with free amount strictly greater than zero, and
every recorded free amount is positive (zero-amount entries are
omitted); `get_balance` computes the same mapping on a successful fetch
and the empty mapping when the fetch raises. -/
theorem balance_positive_free (balances : List (String × ℚ)) (a : String) :
    ((∃ q, (a, q) ∈ get_account_balance balances) ↔ ∃ q, (a, q) ∈ balances ∧ q > 0)
  ∧ ((get_account_balance balances).all fun p => decide (p.2 > 0)) = true
  ∧ get_balance (some balances) = get_account_balance balances
  ∧ get_balance none = [] := by
  refine ⟨?_, ?_, rfl, rfl⟩
  · simpa [get_account_balance] using mem_balance_foldl balances [] a
  · simp only [List.all_eq_true, decide_eq_true_eq]
    intro p hp
    exact pos_balance_foldl balances [] (by simp) p
      (by simpa [get_account_balance] using hp)

/-- C8 counterexample: trading_bot.py with a missing `.env` file does not
fall back to testnet placeholder credentials: `load_env` returns the
empty dict and the argparse default for the API key is the empty string,
not a placeholder. -/
theorem default_credentials_cex :
    load_env none = some []
    ∧ (argparse_defaults []).map ArgsDefaults.api_key = some ""
    ∧ "" ≠ "your_testnet_key" := by decide

/-- C8 amended: when the `.env` file is missing, bot.py's `load_config`
falls back to the built-in defaults (testnet placeholder credentials,
symbol BTCUSDT, buy threshold 60000, sell threshold 68000, trade
quantity 0.001), while trading_bot.py's `load_env` returns the empty
dict and its argparse defaults supply the same symbol, thresholds,
quantity and testnet mode but empty-string credentials. -/
theorem default_config_fallback :
    load_config none = some default_config
  ∧ dict_get default_config "BINANCE_API_KEY" "" = "your_testnet_key"
  ∧ dict_get default_config "BINANCE_API_SECRET" "" = "your_testnet_secret"
  ∧ dict_get default_config "SYMBOL" "" = "BTCUSDT"
  ∧ parse_decimal (dict_get default_config "BUY_THRESHOLD" "") = some 60000
  ∧ parse_decimal (dict_get default_config "SELL_THRESHOLD" "") = some 68000
  ∧ parse_decimal (dict_get default_config "TRADE_QUANTITY" "") = some (0.001 : ℚ)
  ∧ load_env none = some []
  ∧ argparse_defaults [] = some
      { api_key := "", api_secret := "", symbol := "BTCUSDT",
        buy := 60000, sell := 68000, qty := (0.001 : ℚ), testnet := true } := by
  rw [(by norm_num : (0.001 : ℚ) = mkRat 1 1000)]
  decide

end TradingBot
